import Mathlib

/-!
Verification development for the travel-planning durable graph-execution
engine.  The repository contains two LangGraph-based implementations of the
same multi-agent travel workflow:

* `src/workflow/pure_langgraph_travel_agent.py` — state `TravelAgentState`,
  routing `_route_next_action`, fan-out of the two search agents, nodes
  `supervisor`, `flight_agent`, `accommodation_agent`, `itinerary_agent`,
  `coordinator`, `human_feedback`;
* `src/agents/travel_agent.py` — state `TravelPlanningState`, routing
  `_route_from_supervisor`, sequential coordinators, plus a
  `result_aggregator` step.

The handlers call external LLM-backed workflows; those calls are modelled by
an environment `Env` recording, for each external workflow, either its
returned value or the exception message it raises.  The scheduling loop,
checkpointing and interrupt/resume behaviour live in the LangGraph library
(not part of this repository); they are modelled from the specification of
the durable graph-execution engine (step loop, interrupt-before,
checkpoints, resume via value injection).
-/

namespace TravelAI

/-- Python truthiness of an optional string: `None` and `""` are falsy. -/
def pyTruthy : Option String → Bool
  | none => false
  | some s => !(s == "")

/-- `TravelRequest` from `src/models/travel_models.py`. -/
structure TravelRequest where
  destination : String
  start_date : String
  end_date : String
  number_of_travelers : Nat
deriving Repr, DecidableEq

/-- `FlightDetails` from `src/models/travel_models.py`. -/
structure FlightDetails where
  airline : String
  flight_number : String
  departure_time : String
  arrival_time : String
  price : Nat
deriving Repr, DecidableEq

/-- `AccommodationDetails` from `src/models/travel_models.py`. -/
structure AccommodationDetails where
  hotel_name : String
  check_in_date : String
  check_out_date : String
  price_per_night : Nat
  total_price : Nat
deriving Repr, DecidableEq

/-- Python `dict[k] = v`: overwrite in place when the key is present,
otherwise append at the end (insertion order preserved). -/
def dictSet (m : List (String × String)) (k v : String) :
    List (String × String) :=
  if m.any (fun p => p.1 == k) then
    m.map (fun p => if p.1 == k then (k, v) else p)
  else m ++ [(k, v)]

/-- Outcomes of the external LLM-backed workflow calls made by the task
handlers (`SearchFlightsAgentWorkflow.run`, `BookAccommodationAgentWorkflow.run`,
`CreateItineraryAgentWorkflow.run` and the corresponding specialised agents):
either a returned value or the message of the exception they raise. -/
structure Env where
  flightResult : Except String FlightDetails
  accommodationResult : Except String AccommodationDetails
  itineraryResult : Except String String

namespace PureGraph

/-- One entry of `TravelAgentState.messages`; each constructor mirrors one
append site in `pure_langgraph_travel_agent.py` (the dict payloads are carried
as their constituent data). -/
inductive Msg where
  | supervisor (message : String)
  | flightCompleted (result : String)
  | accommodationCompleted (result : String)
  | itineraryCompleted (result : String)
  | coordinatorStatus (completedTasks : List String) (errorCount : Nat)
  | humanFeedback (feedback : String)
deriving Repr, DecidableEq

/-- `TravelAgentState` from `pure_langgraph_travel_agent.py`. -/
structure TravelAgentState where
  request : TravelRequest
  flight_details : Option FlightDetails := none
  accommodation_details : Option AccommodationDetails := none
  itinerary : Option String := none
  messages : List Msg := []
  completed_tasks : List String := []
  errors : List (String × String) := []
  next_action : String := "start"
  user_feedback : Option String := none
deriving Repr, DecidableEq

/-- `_supervisor_agent`: appends a coordination message; the `remaining`
list it computes is only printed, never stored. -/
def supervisor_agent (s : TravelAgentState) : TravelAgentState :=
  { s with messages := s.messages ++ [Msg.supervisor
      ("Planning trip to " ++ s.request.destination ++ " for "
        ++ toString s.request.number_of_travelers ++ " travelers")] }

/-- `_flight_agent`: no-op when already completed; on success records
flight details, appends the task name and a message; on an exception records
its message under `errors["flight_agent"]`. -/
def flight_agent (env : Env) (s : TravelAgentState) : TravelAgentState :=
  if "flight_search" ∈ s.completed_tasks then s
  else
    match env.flightResult with
    | Except.ok fd =>
        { s with
          flight_details := some fd,
          completed_tasks := s.completed_tasks ++ ["flight_search"],
          messages := s.messages ++ [Msg.flightCompleted
            ("Found " ++ fd.airline ++ " flight " ++ fd.flight_number)] }
    | Except.error e => { s with errors := dictSet s.errors "flight_agent" e }

/-- `_accommodation_agent`, symmetric to `_flight_agent`. -/
def accommodation_agent (env : Env) (s : TravelAgentState) : TravelAgentState :=
  if "accommodation_search" ∈ s.completed_tasks then s
  else
    match env.accommodationResult with
    | Except.ok ad =>
        { s with
          accommodation_details := some ad,
          completed_tasks := s.completed_tasks ++ ["accommodation_search"],
          messages := s.messages ++ [Msg.accommodationCompleted
            ("Booked " ++ ad.hotel_name)] }
    | Except.error e =>
        { s with errors := dictSet s.errors "accommodation_agent" e }

/-- `_itinerary_agent`: no-op when already completed or when either detail
slot is still empty; otherwise behaves like the other task handlers. -/
def itinerary_agent (env : Env) (s : TravelAgentState) : TravelAgentState :=
  if "itinerary_creation" ∈ s.completed_tasks then s
  else if s.flight_details = none ∨ s.accommodation_details = none then s
  else
    match env.itineraryResult with
    | Except.ok it =>
        { s with
          itinerary := some it,
          completed_tasks := s.completed_tasks ++ ["itinerary_creation"],
          messages := s.messages ++ [Msg.itineraryCompleted
            "Comprehensive itinerary created"] }
    | Except.error e => { s with errors := dictSet s.errors "itinerary_agent" e }

/-- `_coordinator_agent`: appends a status message; the readiness check it
performs is only printed. -/
def coordinator_agent (s : TravelAgentState) : TravelAgentState :=
  { s with messages := s.messages ++
      [Msg.coordinatorStatus s.completed_tasks s.errors.length] }

/-- `_human_feedback_node`: simulates approval, then appends the feedback
message. -/
def human_feedback_node (s : TravelAgentState) : TravelAgentState :=
  { s with
    user_feedback := some "approved",
    messages := s.messages ++ [Msg.humanFeedback "approved"] }

/-- `_route_next_action`: dynamic routing evaluated at the supervisor. -/
def route_next_action (s : TravelAgentState) : String :=
  let completed := s.completed_tasks.toFinset
  if completed = ∅ then "parallel_search"
  else if "flight_search" ∈ completed ∧ "accommodation_search" ∈ completed
      ∧ "itinerary_creation" ∉ completed then "create_itinerary"
  else if 3 ≤ completed.card then
    if pyTruthy s.user_feedback then "end" else "get_feedback"
  else "coordinate"

/-- The six nodes added by `_build_graph`. -/
inductive Node where
  | supervisor
  | flight_agent
  | accommodation_agent
  | itinerary_agent
  | coordinator
  | human_feedback
deriving Repr, DecidableEq

/-- The symbol-to-target map of the conditional edge declared in
`_build_graph` (symbol `"end"` maps to `END`, i.e. no targets);
an undeclared symbol yields `none` (fatal). -/
def symbolTargets : String → Option (List Node)
  | "parallel_search" => some [Node.flight_agent, Node.accommodation_agent]
  | "create_itinerary" => some [Node.itinerary_agent]
  | "get_feedback" => some [Node.human_feedback]
  | "coordinate" => some [Node.coordinator]
  | "end" => some []
  | _ => none

/-- Handler attached to each node in `_build_graph`. -/
def execNode (env : Env) : Node → TravelAgentState → TravelAgentState
  | Node.supervisor => supervisor_agent
  | Node.flight_agent => flight_agent env
  | Node.accommodation_agent => accommodation_agent env
  | Node.itinerary_agent => itinerary_agent env
  | Node.coordinator => coordinator_agent
  | Node.human_feedback => human_feedback_node

/-- Outgoing edges of each node: the supervisor routes through the
conditional edge, the three task agents feed the coordinator, the
coordinator and the feedback node loop back to the supervisor. -/
def nodeSucc (s : TravelAgentState) : Node → Option (List Node)
  | Node.supervisor => symbolTargets (route_next_action s)
  | Node.flight_agent => some [Node.coordinator]
  | Node.accommodation_agent => some [Node.coordinator]
  | Node.itinerary_agent => some [Node.coordinator]
  | Node.coordinator => some [Node.supervisor]
  | Node.human_feedback => some [Node.supervisor]

/-- `interrupt_before=["human_feedback"]` from `_build_graph`. -/
def interruptBefore : List Node := [Node.human_feedback]

/-- Initial state built by `run`: `TravelAgentState(request=request)` with
all other fields at their defaults. -/
def initialTravelState (req : TravelRequest) : TravelAgentState :=
  { request := req }

end PureGraph

namespace Agents

/-- One entry of `TravelPlanningState.agent_messages`; each constructor
mirrors one append site in `src/agents/travel_agent.py`.  Wall-clock
timestamps and the nested detail dicts (which only echo fields already held
in the state) are elided. -/
inductive AMsg where
  | supervisor (message : String)
  | flightCompleted (result : String)
  | flightError (message : String)
  | accommodationCompleted (result : String)
  | accommodationError (message : String)
  | itineraryCompleted (result : String)
  | itineraryError (message : String)
  | aggregatorFinalizing (message : String)
  | feedbackRequest (message : String)
deriving Repr, DecidableEq

/-- `TravelPlanningState` from `src/agents/travel_agent.py`; there the
detail slots are dicts, with the empty dict (falsy) playing the role of the
missing value, modelled here as `none`. -/
structure TravelPlanningState where
  request : TravelRequest
  flight_details : Option FlightDetails := none
  accommodation_details : Option AccommodationDetails := none
  itinerary : Option String := none
  agent_messages : List AMsg := []
  completed_tasks : List String := []
  errors : List (String × String) := []
  next_action : String := "start"
  user_feedback : Option String := none
  parallel_tasks_running : Bool := false
deriving Repr, DecidableEq

/-- `_supervisor`: appends a coordination message; the `remaining` list it
computes is only printed. -/
def supervisor (s : TravelPlanningState) : TravelPlanningState :=
  { s with agent_messages := s.agent_messages ++ [AMsg.supervisor
      ("Planning trip to " ++ s.request.destination ++ " for "
        ++ toString s.request.number_of_travelers ++ " travelers")] }

/-- `_flight_coordinator`: no-op when already completed; on success records
the flight details and appends the task name; on an exception records the
message under `errors["flight_search"]` and appends an error message. -/
def flight_coordinator (env : Env) (s : TravelPlanningState) :
    TravelPlanningState :=
  if "flight_search" ∈ s.completed_tasks then s
  else
    match env.flightResult with
    | Except.ok fd =>
        { s with
          flight_details := some fd,
          completed_tasks := s.completed_tasks ++ ["flight_search"],
          agent_messages := s.agent_messages ++ [AMsg.flightCompleted
            ("Found " ++ fd.airline ++ " flight " ++ fd.flight_number)] }
    | Except.error e =>
        { s with
          errors := dictSet s.errors "flight_search" e,
          agent_messages := s.agent_messages ++ [AMsg.flightError e] }

/-- `_accommodation_coordinator`, symmetric to `_flight_coordinator`,
keyed by `"accommodation_search"`. -/
def accommodation_coordinator (env : Env) (s : TravelPlanningState) :
    TravelPlanningState :=
  if "accommodation_search" ∈ s.completed_tasks then s
  else
    match env.accommodationResult with
    | Except.ok ad =>
        { s with
          accommodation_details := some ad,
          completed_tasks := s.completed_tasks ++ ["accommodation_search"],
          agent_messages := s.agent_messages ++ [AMsg.accommodationCompleted
            ("Booked " ++ ad.hotel_name)] }
    | Except.error e =>
        { s with
          errors := dictSet s.errors "accommodation_search" e,
          agent_messages := s.agent_messages ++ [AMsg.accommodationError e] }

/-- `_itinerary_coordinator`: no-op when already completed or when either
detail slot is still empty (the empty dict is falsy); on an exception
records the message under `errors["itinerary_creation"]`. -/
def itinerary_coordinator (env : Env) (s : TravelPlanningState) :
    TravelPlanningState :=
  if "itinerary_creation" ∈ s.completed_tasks then s
  else if s.flight_details = none ∨ s.accommodation_details = none then s
  else
    match env.itineraryResult with
    | Except.ok it =>
        { s with
          itinerary := some it,
          completed_tasks := s.completed_tasks ++ ["itinerary_creation"],
          agent_messages := s.agent_messages ++ [AMsg.itineraryCompleted
            "Comprehensive itinerary created"] }
    | Except.error e =>
        { s with
          errors := dictSet s.errors "itinerary_creation" e,
          agent_messages := s.agent_messages ++ [AMsg.itineraryError e] }

/-- `_result_aggregator`: appends the finalizing message (its summary dict
echoes fields already held in the state). -/
def result_aggregator (s : TravelPlanningState) : TravelPlanningState :=
  { s with agent_messages := s.agent_messages ++
      [AMsg.aggregatorFinalizing "Compiling comprehensive travel plan"] }

/-- `_human_feedback`: appends the request message, then simulates
approval. -/
def human_feedback (s : TravelPlanningState) : TravelPlanningState :=
  { s with
    agent_messages := s.agent_messages ++ [AMsg.feedbackRequest
      "Please review the travel plan and provide feedback"],
    user_feedback := some "approved" }

/-- `_route_from_supervisor`: dynamic routing evaluated at the supervisor
of the agents version. -/
def route_from_supervisor (s : TravelPlanningState) : String :=
  let completed := s.completed_tasks.toFinset
  if completed = ∅ then "flight_search"
  else if "flight_search" ∈ completed ∧ "accommodation_search" ∉ completed then
    "accommodation_search"
  else if "flight_search" ∈ completed ∧ "accommodation_search" ∈ completed
      ∧ "itinerary_creation" ∉ completed then "create_itinerary"
  else if 3 ≤ completed.card then
    if pyTruthy s.user_feedback then "complete" else "get_feedback"
  else "end"

/-- The six nodes added by `_build_coordination_workflow`. -/
inductive ANode where
  | supervisor
  | flight_coordinator
  | accommodation_coordinator
  | itinerary_coordinator
  | result_aggregator
  | human_feedback
deriving Repr, DecidableEq

/-- The symbol-to-target map of the conditional edge declared in
`_build_coordination_workflow`; `"end"` maps to `END`. -/
def aSymbolTargets : String → Option (List ANode)
  | "flight_search" => some [ANode.flight_coordinator]
  | "accommodation_search" => some [ANode.accommodation_coordinator]
  | "create_itinerary" => some [ANode.itinerary_coordinator]
  | "get_feedback" => some [ANode.human_feedback]
  | "complete" => some [ANode.result_aggregator]
  | "end" => some []
  | _ => none

/-- Handler attached to each node of the agents version. -/
def aExecNode (env : Env) : ANode → TravelPlanningState → TravelPlanningState
  | ANode.supervisor => supervisor
  | ANode.flight_coordinator => flight_coordinator env
  | ANode.accommodation_coordinator => accommodation_coordinator env
  | ANode.itinerary_coordinator => itinerary_coordinator env
  | ANode.result_aggregator => result_aggregator
  | ANode.human_feedback => human_feedback

/-- Outgoing edges of the agents version: the three coordinators loop back
to the supervisor, the result aggregator goes to `END`, the feedback node
loops back to the supervisor. -/
def aNodeSucc (s : TravelPlanningState) : ANode → Option (List ANode)
  | ANode.supervisor => aSymbolTargets (route_from_supervisor s)
  | ANode.flight_coordinator => some [ANode.supervisor]
  | ANode.accommodation_coordinator => some [ANode.supervisor]
  | ANode.itinerary_coordinator => some [ANode.supervisor]
  | ANode.result_aggregator => some []
  | ANode.human_feedback => some [ANode.supervisor]

/-- `interrupt_before=["human_feedback"]` from
`_build_coordination_workflow`. -/
def aInterruptBefore : List ANode := [ANode.human_feedback]

end Agents

/-! The execution engine.  The repository delegates scheduling,
checkpointing, interrupt-before and resume to the LangGraph library, which
is not part of the repository source; the definitions below are modelled
from the specification of the durable graph-execution engine: a step loop
that routes, suspends before interrupt-flagged targets, executes and merges
the scheduled step(s), persists a checkpoint with the next-step set after
every step, and terminates when the next-step set is empty.  Fan-out is
modelled as an ordered fold over the target list, which agrees with the
per-field merge because the two concurrently scheduled search handlers
write disjoint result slots and append distinct task names and error
keys. -/

/-- Modelled from the spec: a checkpoint records a monotonically increasing
step index, the state snapshot and the set of step names scheduled to run
next (empty if terminal). -/
structure Checkpoint (N S : Type) where
  stepIndex : Nat
  state : S
  nextSteps : List N
deriving Repr, DecidableEq

/-- Modelled from the spec: outcome of driving one run — reaching
`TERMINATE`, suspending before an interrupt-flagged step, aborting on an
undeclared routing symbol, or exhausting the step budget (the recursion
limit of the underlying engine). -/
inductive Outcome (N S : Type) where
  | terminated (s : S)
  | suspended (s : S) (next : List N)
  | fatalRouting (s : S)
  | outOfFuel (s : S)
deriving Repr, DecidableEq

/-- The state carried by an outcome. -/
def Outcome.state {N S : Type} : Outcome N S → S
  | Outcome.terminated s => s
  | Outcome.suspended s _ => s
  | Outcome.fatalRouting s => s
  | Outcome.outOfFuel s => s

/-- True only for the out-of-fuel outcome. -/
def Outcome.isOutOfFuel {N S : Type} : Outcome N S → Bool
  | Outcome.outOfFuel _ => true
  | _ => false

/-- True only for the terminated outcome. -/
def Outcome.isTerminated {N S : Type} : Outcome N S → Bool
  | Outcome.terminated _ => true
  | _ => false

/-- Modelled from the spec: a validated graph — per-step handler, a
successor map from the just-executed step set to the next target set
(`none` when a routing function produced an undeclared symbol), the
interrupt-before flags and the entry step. -/
structure GraphDef (N S : Type) where
  exec : N → S → S
  succ : List N → S → Option (List N)
  interruptFlag : N → Bool
  entry : N

/-- Append-without-duplicates used to join the successor sets of a fan-out
(each target scheduled at most once). -/
def joinTargets {N : Type} [DecidableEq N] (a b : List N) : List N :=
  a ++ b.filter (fun n => ¬ n ∈ a)

/-- Execute all scheduled step(s) and merge their effects (ordered fold;
see the note above on why this agrees with the concurrent merge). -/
def execTargets {N S : Type} (G : GraphDef N S) (ts : List N) (s : S) : S :=
  ts.foldl (fun st n => G.exec n st) s

/-- Modelled from the spec: the step loop of the `ExecutionScheduler`.
`fuel` bounds the number of iterations (the engine recursion limit);
`skipInterrupt` is true exactly on the first iteration of a resumed run,
whose targets were loaded from the checkpoint and must execute rather than
re-trigger the interrupt. -/
def runLoop {N S : Type} (G : GraphDef N S) :
    Nat → Bool → List N → S → List (Checkpoint N S) →
      Outcome N S × List (Checkpoint N S)
  | 0, _, _, s, cps => (Outcome.outOfFuel s, cps)
  | fuel + 1, skipInterrupt, targets, s, cps =>
    if targets.isEmpty then (Outcome.terminated s, cps)
    else if ¬ skipInterrupt ∧ targets.any G.interruptFlag then
      (Outcome.suspended s targets, cps ++ [⟨cps.length, s, targets⟩])
    else
      match G.succ targets (execTargets G targets s) with
      | none => (Outcome.fatalRouting (execTargets G targets s), cps)
      | some nts =>
        runLoop G fuel false nts (execTargets G targets s)
          (cps ++ [⟨cps.length, execTargets G targets s, nts⟩])

/-- Modelled from the spec: the `CheckpointStore` maps session ids to the
checkpoint chain of that session, oldest first. -/
abbrev Store (N S : Type) := List (String × List (Checkpoint N S))

/-- The checkpoint chain stored for a session (empty when the session is
unknown). -/
def lookupSession {N S : Type} (store : Store N S) (sid : String) :
    List (Checkpoint N S) :=
  (store.lookup sid).getD []

/-- Replace (or create) the checkpoint chain stored for a session. -/
def storeSet {N S : Type} (store : Store N S) (sid : String)
    (cps : List (Checkpoint N S)) : Store N S :=
  (sid, cps) :: store.filter (fun p => ¬ p.1 == sid)

/-- Modelled from the spec: `Run(sessionId, initialState, config)`.  With a
provided initial state this must be the first run for the session
(otherwise it fails with "session already started" before executing any
step); with no initial state it loads the latest checkpoint and continues
from its recorded next-step set. -/
def schedRun {N S : Type} (G : GraphDef N S) (store : Store N S)
    (sid : String) (initial : Option S) (fuel : Nat) :
    Except String (Outcome N S × Store N S) :=
  match initial with
  | some s0 =>
    if ¬ (lookupSession store sid).isEmpty then
      Except.error "session already started"
    else
      Except.ok ((runLoop G fuel false [G.entry] s0 []).1,
        storeSet store sid (runLoop G fuel false [G.entry] s0 []).2)
  | none =>
    match (lookupSession store sid).getLast? with
    | none => Except.error "no checkpoint for session"
    | some cp =>
      Except.ok
        ((runLoop G fuel true cp.nextSteps cp.state
            (lookupSession store sid)).1,
          storeSet store sid
            (runLoop G fuel true cp.nextSteps cp.state
              (lookupSession store sid)).2)

/-- Modelled from the spec: `InjectValues` merges externally supplied
fields into the stored head checkpoint without advancing the step index;
`merge` is the field-merge applied to the head state. -/
def injectValues {N S : Type} (store : Store N S) (sid : String)
    (merge : S → S) : Store N S :=
  match (lookupSession store sid).getLast? with
  | none => store
  | some cp =>
    storeSet store sid
      ((lookupSession store sid).dropLast
        ++ [⟨cp.stepIndex, merge cp.state, cp.nextSteps⟩])

/-- Modelled from the spec: `Resume(sessionId, inputValues)` injects the
supplied values into the stored head, then calls `Run(sessionId, nil)`. -/
def resume {N S : Type} (G : GraphDef N S) (store : Store N S)
    (sid : String) (merge : S → S) (fuel : Nat) :
    Except String (Outcome N S × Store N S) :=
  schedRun G (injectValues store sid merge) sid none fuel

namespace PureGraph

/-- The compiled graph of `pure_langgraph_travel_agent.py`: handlers,
edges, conditional routing and the interrupt-before flag, under the
spec-modelled engine. -/
def pureGraph (env : Env) : GraphDef Node TravelAgentState where
  exec := execNode env
  succ := fun executed s =>
    executed.foldl (fun acc n =>
      match acc, nodeSucc s n with
      | some l, some l2 => some (joinTargets l l2)
      | _, _ => none) (some [])
  interruptFlag := fun n => interruptBefore.contains n
  entry := Node.supervisor

/-- The field merge performed by the resume path (`resume_from_feedback`
updates the stored state with the user input before resuming); the only
field the repository ever injects is the user-feedback slot. -/
def applyInputValues (vals : List (String × String))
    (s : TravelAgentState) : TravelAgentState :=
  vals.foldl (fun st kv =>
    if kv.1 == "user_feedback" then { st with user_feedback := some kv.2 }
    else st) s

/-- The aggregate result built by `run`: `success=True` with the final
state fields whenever the engine returns a state (including an interrupted
one), `success=False` when it raises (recursion limit, fatal routing). -/
structure RunResult where
  success : Bool
  suspended : Bool
  completed_tasks : List String
  errors : List (String × String)
deriving Repr, DecidableEq

/-- Build the `RunResult` from an engine outcome. -/
def mkRunResult : Outcome Node TravelAgentState → RunResult
  | Outcome.terminated s => ⟨true, false, s.completed_tasks, s.errors⟩
  | Outcome.suspended s _ => ⟨true, true, s.completed_tasks, s.errors⟩
  | Outcome.fatalRouting _ => ⟨false, false, [], []⟩
  | Outcome.outOfFuel _ => ⟨false, false, [], []⟩

end PureGraph

namespace Agents

/-- The compiled graph of `src/agents/travel_agent.py` under the
spec-modelled engine. -/
def agentsGraph (env : Env) : GraphDef ANode TravelPlanningState where
  exec := aExecNode env
  succ := fun executed s =>
    executed.foldl (fun acc n =>
      match acc, aNodeSucc s n with
      | some l, some l2 => some (joinTargets l l2)
      | _, _ => none) (some [])
  interruptFlag := fun n => aInterruptBefore.contains n
  entry := ANode.supervisor

end Agents

/-! Concrete fixtures used by witnesses and counterexamples. -/

/-- A concrete travel request. -/
def reqDemo : TravelRequest :=
  ⟨"Testland", "2025-06-01", "2025-06-07", 2⟩

/-- A concrete flight result (the default stub values of the source). -/
def fdDemo : FlightDetails := ⟨"LLM-Air", "LLM123", "09:00", "17:00", 500⟩

/-- A concrete accommodation result. -/
def adDemo : AccommodationDetails :=
  ⟨"Echo Hotel", "2025-06-01", "2025-06-07", 100, 400⟩

/-- Environment in which every external workflow succeeds. -/
def envOk : Env :=
  ⟨Except.ok fdDemo, Except.ok adDemo, Except.ok "Day 1: arrive"⟩

/-- Environment in which the flight search raises "boom" and the others
succeed (Scenario B). -/
def envFlightBoom : Env :=
  ⟨Except.error "boom", Except.ok adDemo, Except.ok "Day 1: arrive"⟩

namespace PureGraph

/-- The Scenario B stuck state of the fan-out version: the flight search
failed with "boom" (error recorded, task not completed), the accommodation
search succeeded. -/
def sScenarioB : TravelAgentState :=
  { request := reqDemo,
    accommodation_details := some adDemo,
    completed_tasks := ["accommodation_search"],
    errors := [("flight_agent", "boom")] }

/-- A state in which all three tasks are completed and feedback was
given. -/
def sAllDone : TravelAgentState :=
  { request := reqDemo,
    flight_details := some fdDemo,
    accommodation_details := some adDemo,
    itinerary := some "Day 1: arrive",
    completed_tasks :=
      ["flight_search", "accommodation_search", "itinerary_creation"],
    user_feedback := some "approved" }

/-- A state in which all three tasks are completed but no feedback was
given yet. -/
def sReadyFeedback : TravelAgentState :=
  { request := reqDemo,
    flight_details := some fdDemo,
    accommodation_details := some adDemo,
    itinerary := some "Day 1: arrive",
    completed_tasks :=
      ["flight_search", "accommodation_search", "itinerary_creation"] }

/-- The all-done state with a recorded task error: used to exhibit a
terminated run whose error map is non-empty. -/
def sAllDoneErr : TravelAgentState :=
  { request := reqDemo,
    flight_details := some fdDemo,
    accommodation_details := some adDemo,
    itinerary := some "Day 1: arrive",
    completed_tasks :=
      ["flight_search", "accommodation_search", "itinerary_creation"],
    errors := [("flight_agent", "boom")],
    user_feedback := some "approved" }

/-- A concrete suspended-at-feedback checkpoint. -/
def cpDemo : Checkpoint Node TravelAgentState :=
  ⟨0, sReadyFeedback, [Node.human_feedback]⟩

/-- A concrete store holding one session with one checkpoint. -/
def storeDemo : Store Node TravelAgentState := [("s1", [cpDemo])]

/-- The duplicate-freeness invariant over an engine result: it holds of the
outcome state and of every checkpointed state. -/
def NodupInv
    (r : Outcome Node TravelAgentState ×
      List (Checkpoint Node TravelAgentState)) : Prop :=
  r.1.state.completed_tasks.Nodup
    ∧ ∀ cp ∈ r.2, cp.state.completed_tasks.Nodup

end PureGraph

namespace Agents

/-- The initial agents-version state. -/
def aStart : TravelPlanningState := { request := reqDemo }

/-- The agents-version analogue of the Scenario B stuck state. -/
def aScenarioB : TravelPlanningState :=
  { request := reqDemo,
    accommodation_details := some adDemo,
    completed_tasks := ["accommodation_search"],
    errors := [("flight_search", "boom")] }

/-- All three tasks completed and feedback given (agents version). -/
def aAllDone : TravelPlanningState :=
  { request := reqDemo,
    flight_details := some fdDemo,
    accommodation_details := some adDemo,
    itinerary := some "Day 1: arrive",
    completed_tasks :=
      ["flight_search", "accommodation_search", "itinerary_creation"],
    user_feedback := some "approved" }

end Agents

/-! Helper lemmas. -/

/-- Joining targets into the empty set keeps them unchanged. -/
theorem joinTargets_nil {N : Type} [DecidableEq N] (l : List N) :
    joinTargets [] l = l := by
  simp [joinTargets]

/-- Reading a session back immediately after writing it yields the written
chain. -/
theorem lookupSession_storeSet {N S : Type} (store : Store N S)
    (sid : String) (l : List (Checkpoint N S)) :
    lookupSession (storeSet store sid l) sid = l := by
  simp [lookupSession, storeSet, List.lookup]

namespace PureGraph

/-- The successor set of a single executed node is its edge target set. -/
theorem pureSucc_single (env : Env) (s : TravelAgentState) (n : Node) :
    (pureGraph env).succ [n] s = nodeSucc s n := by
  cases h : nodeSucc s n <;>
    simp [pureGraph, List.foldl, h, joinTargets_nil]

/-- Executing a single target applies its handler. -/
theorem execTargets_single (env : Env) (s : TravelAgentState) (n : Node) :
    execTargets (pureGraph env) [n] s = execNode env n s := rfl

/-- The supervisor only appends a message. -/
theorem supervisor_agent_fields (s : TravelAgentState) :
    (supervisor_agent s).completed_tasks = s.completed_tasks
      ∧ (supervisor_agent s).user_feedback = s.user_feedback
      ∧ (supervisor_agent s).errors = s.errors := ⟨rfl, rfl, rfl⟩

/-- The coordinator only appends a message. -/
theorem coordinator_agent_fields (s : TravelAgentState) :
    (coordinator_agent s).completed_tasks = s.completed_tasks
      ∧ (coordinator_agent s).user_feedback = s.user_feedback
      ∧ (coordinator_agent s).errors = s.errors := ⟨rfl, rfl, rfl⟩

/-- Routing is insensitive to the message log, so the supervisor handler
does not change the routing decision. -/
theorem route_supervisor_agent (s : TravelAgentState) :
    route_next_action (supervisor_agent s) = route_next_action s := rfl

/-- The coordinator handler does not change the routing decision. -/
theorem route_coordinator_agent (s : TravelAgentState) :
    route_next_action (coordinator_agent s) = route_next_action s := rfl

/-- On the Scenario B completed-task list the routing falls through to the
defensive branch and returns "coordinate". -/
theorem route_coordinate_of_onlyAccommodation (s : TravelAgentState)
    (h : s.completed_tasks = ["accommodation_search"]) :
    route_next_action s = "coordinate" := by
  unfold route_next_action
  rw [h]
  rw [if_neg (by decide), if_neg (by decide), if_neg (by decide)]

/-- From any state whose only completed task is the accommodation search,
the run cycles forever between the supervisor and the coordinator: for
every step budget the outcome is out-of-fuel, never terminated, suspended
or fatal. -/
theorem stuck_onlyAccommodation (env : Env) :
    ∀ (fuel : Nat) (t : List Node) (s : TravelAgentState)
      (cps : List (Checkpoint Node TravelAgentState)),
      (t = [Node.supervisor] ∨ t = [Node.coordinator]) →
      s.completed_tasks = ["accommodation_search"] →
      ((runLoop (pureGraph env) fuel false t s cps).1).isOutOfFuel = true := by
  intro fuel
  induction fuel with
  | zero =>
    intro t s cps _ _
    simp [runLoop, Outcome.isOutOfFuel]
  | succ n ih =>
    intro t s cps ht hs
    rcases ht with h | h <;> subst h
    · have hroute : route_next_action (supervisor_agent s) = "coordinate" := by
        rw [route_supervisor_agent]
        exact route_coordinate_of_onlyAccommodation s hs
      have hsucc : (pureGraph env).succ [Node.supervisor] (supervisor_agent s)
          = some [Node.coordinator] := by
        rw [pureSucc_single]
        show symbolTargets (route_next_action (supervisor_agent s))
          = some [Node.coordinator]
        rw [hroute]
        decide
      rw [runLoop]
      rw [if_neg (by decide), if_neg (by simp [pureGraph, interruptBefore])]
      simp only [execTargets_single, execNode]
      rw [hsucc]
      exact ih [Node.coordinator] (supervisor_agent s) _ (Or.inr rfl) hs
    · have hsucc : (pureGraph env).succ [Node.coordinator] (coordinator_agent s)
          = some [Node.supervisor] := by
        rw [pureSucc_single]
        rfl
      rw [runLoop]
      rw [if_neg (by decide), if_neg (by simp [pureGraph, interruptBefore])]
      simp only [execTargets_single, execNode]
      rw [hsucc]
      exact ih [Node.supervisor] (coordinator_agent s) _ (Or.inl rfl) hs

end PureGraph

namespace PureGraph

/-- Every node handler preserves duplicate-freeness of the completed-task
list: a task name is appended only after a membership check. -/
theorem execNode_nodup (env : Env) (n : Node) (s : TravelAgentState)
    (h : s.completed_tasks.Nodup) :
    (execNode env n s).completed_tasks.Nodup := by
  cases n
  case supervisor => exact h
  case coordinator => exact h
  case human_feedback => exact h
  case flight_agent =>
    show (flight_agent env s).completed_tasks.Nodup
    unfold flight_agent
    split
    · exact h
    · next hmem =>
      split
      · show (s.completed_tasks ++ ["flight_search"]).Nodup
        simp [List.nodup_append, h, hmem]
      · exact h
  case accommodation_agent =>
    show (accommodation_agent env s).completed_tasks.Nodup
    unfold accommodation_agent
    split
    · exact h
    · next hmem =>
      split
      · show (s.completed_tasks ++ ["accommodation_search"]).Nodup
        simp [List.nodup_append, h, hmem]
      · exact h
  case itinerary_agent =>
    show (itinerary_agent env s).completed_tasks.Nodup
    unfold itinerary_agent
    split
    · exact h
    · split
      · exact h
      · next hmem _ =>
        split
        · show (s.completed_tasks ++ ["itinerary_creation"]).Nodup
          simp [List.nodup_append, h, hmem]
        · exact h

/-- Executing any target list preserves duplicate-freeness. -/
theorem execTargets_nodup (env : Env) (ts : List Node)
    (s : TravelAgentState) (h : s.completed_tasks.Nodup) :
    (execTargets (pureGraph env) ts s).completed_tasks.Nodup := by
  induction ts generalizing s with
  | nil => exact h
  | cons n rest ih =>
    exact ih (execNode env n s) (execNode_nodup env n s h)

/-- The engine preserves the duplicate-freeness invariant from any starting
state and checkpoint chain that satisfy it. -/
theorem runLoop_nodup (env : Env) :
    ∀ (fuel : Nat) (skip : Bool) (t : List Node) (s : TravelAgentState)
      (cps : List (Checkpoint Node TravelAgentState)),
      s.completed_tasks.Nodup →
      (∀ cp ∈ cps, cp.state.completed_tasks.Nodup) →
      NodupInv (runLoop (pureGraph env) fuel skip t s cps) := by
  intro fuel
  induction fuel with
  | zero =>
    intro skip t s cps hs hcps
    exact ⟨hs, hcps⟩
  | succ n ih =>
    intro skip t s cps hs hcps
    rw [runLoop]
    split
    · exact ⟨hs, hcps⟩
    · split
      · refine ⟨hs, ?_⟩
        intro cp hcp
        rcases List.mem_append.1 hcp with hin | hin
        · exact hcps cp hin
        · rcases List.mem_singleton.1 hin with rfl
          exact hs
      · have hs2 := execTargets_nodup env t s hs
        split
        · exact ⟨hs2, hcps⟩
        · apply ih
          · exact hs2
          · intro cp hcp
            rcases List.mem_append.1 hcp with hin | hin
            · exact hcps cp hin
            · rcases List.mem_singleton.1 hin with rfl
              exact hs2

end PureGraph

namespace PureGraph

/-- With all three tasks completed and truthy feedback, the fan-out
version routes directly to "end". -/
theorem route_end_of_allDone (s : TravelAgentState)
    (hf : "flight_search" ∈ s.completed_tasks)
    (ha : "accommodation_search" ∈ s.completed_tasks)
    (hi : "itinerary_creation" ∈ s.completed_tasks)
    (hfb : pyTruthy s.user_feedback = true) :
    route_next_action s = "end" := by
  have hsub : ({"flight_search", "accommodation_search", "itinerary_creation"}
      : Finset String) ⊆ s.completed_tasks.toFinset := by
    intro x hx
    simp only [Finset.mem_insert, Finset.mem_singleton] at hx
    rcases hx with rfl | rfl | rfl
    · exact List.mem_toFinset.2 hf
    · exact List.mem_toFinset.2 ha
    · exact List.mem_toFinset.2 hi
  have hcard : 3 ≤ s.completed_tasks.toFinset.card := by
    have h3 : ({"flight_search", "accommodation_search", "itinerary_creation"}
        : Finset String).card = 3 := by decide
    calc 3 = ({"flight_search", "accommodation_search", "itinerary_creation"}
          : Finset String).card := h3.symm
      _ ≤ s.completed_tasks.toFinset.card := Finset.card_le_card hsub
  unfold route_next_action
  rw [if_neg (Finset.ne_empty_of_mem (List.mem_toFinset.2 hf)),
    if_neg (by
      intro hc
      exact hc.2.2 (List.mem_toFinset.2 hi)),
    if_pos hcard, if_pos hfb]

end PureGraph

namespace Agents

/-- The successor set of a single executed node is its edge target set. -/
theorem aSucc_single (env : Env) (s : TravelPlanningState) (n : ANode) :
    (agentsGraph env).succ [n] s = aNodeSucc s n := by
  cases h : aNodeSucc s n <;>
    simp [agentsGraph, List.foldl, h, joinTargets_nil]

/-- Executing a single target applies its handler. -/
theorem aExecTargets_single (env : Env) (s : TravelPlanningState)
    (n : ANode) :
    execTargets (agentsGraph env) [n] s = aExecNode env n s := rfl

/-- The supervisor handler does not change the routing decision. -/
theorem route_supervisor_handler (s : TravelPlanningState) :
    route_from_supervisor (supervisor s) = route_from_supervisor s := rfl

/-- With all three tasks completed and truthy feedback, the agents version
routes to "complete" (the result aggregator). -/
theorem route_complete_of_allDone (s : TravelPlanningState)
    (hf : "flight_search" ∈ s.completed_tasks)
    (ha : "accommodation_search" ∈ s.completed_tasks)
    (hi : "itinerary_creation" ∈ s.completed_tasks)
    (hfb : pyTruthy s.user_feedback = true) :
    route_from_supervisor s = "complete" := by
  have hsub : ({"flight_search", "accommodation_search", "itinerary_creation"}
      : Finset String) ⊆ s.completed_tasks.toFinset := by
    intro x hx
    simp only [Finset.mem_insert, Finset.mem_singleton] at hx
    rcases hx with rfl | rfl | rfl
    · exact List.mem_toFinset.2 hf
    · exact List.mem_toFinset.2 ha
    · exact List.mem_toFinset.2 hi
  have hcard : 3 ≤ s.completed_tasks.toFinset.card := by
    have h3 : ({"flight_search", "accommodation_search", "itinerary_creation"}
        : Finset String).card = 3 := by decide
    calc 3 = ({"flight_search", "accommodation_search", "itinerary_creation"}
          : Finset String).card := h3.symm
      _ ≤ s.completed_tasks.toFinset.card := Finset.card_le_card hsub
  unfold route_from_supervisor
  rw [if_neg (Finset.ne_empty_of_mem (List.mem_toFinset.2 hf)),
    if_neg (by
      intro hc
      exact hc.2 (List.mem_toFinset.2 ha)),
    if_neg (by
      intro hc
      exact hc.2.2 (List.mem_toFinset.2 hi)),
    if_pos hcard, if_pos hfb]

end Agents

/-! Claim theorems. -/

/-- C1: the claim as stated is false on the fan-out implementation: at the
Scenario B stuck state (flight search failed with "boom" and not completed,
accommodation search completed) the supervisor routing returns
"coordinate" — whose declared target is the coordinator step, not
`TERMINATE` — and the run does not terminate within the given step
budget. -/
theorem c1_counterexample :
    PureGraph.route_next_action PureGraph.sScenarioB = "coordinate"
    ∧ PureGraph.symbolTargets "coordinate" = some [PureGraph.Node.coordinator]
    ∧ ¬ (PureGraph.route_next_action PureGraph.sScenarioB = "end")
    ∧ (runLoop (PureGraph.pureGraph envFlightBoom) 12 false
        [PureGraph.Node.supervisor] PureGraph.sScenarioB []).1.isTerminated
      = false := by
  refine ⟨by decide, by decide, by decide, by decide⟩

/-- C1 (amended): only the sequential implementation routes unmatched
states to `TERMINATE`: every state of `_route_from_supervisor` matching
none of the designed branches falls through to "end", whose declared
target set is empty (no aggregation step).  In the fan-out implementation
the fallback branch returns "coordinate" instead, and from the Scenario B
stuck state the run cycles between supervisor and coordinator forever —
for every step budget the outcome is out-of-fuel, so the run never reaches
the Scenario B terminal result. -/
theorem c1_fallback_amended :
    (∀ s : Agents.TravelPlanningState,
      ¬ s.completed_tasks.toFinset = ∅ →
      ¬ ("flight_search" ∈ s.completed_tasks.toFinset
          ∧ "accommodation_search" ∉ s.completed_tasks.toFinset) →
      ¬ ("flight_search" ∈ s.completed_tasks.toFinset
          ∧ "accommodation_search" ∈ s.completed_tasks.toFinset
          ∧ "itinerary_creation" ∉ s.completed_tasks.toFinset) →
      s.completed_tasks.toFinset.card < 3 →
      Agents.route_from_supervisor s = "end"
        ∧ Agents.aSymbolTargets "end" = some [])
    ∧ (∀ (env : Env) (fuel : Nat)
        (cps : List (Checkpoint PureGraph.Node PureGraph.TravelAgentState)),
        ((runLoop (PureGraph.pureGraph env) fuel false
          [PureGraph.Node.supervisor] PureGraph.sScenarioB cps).1).isOutOfFuel
          = true) := by
  constructor
  · intro s h1 h2 h3 h4
    refine ⟨?_, by decide⟩
    unfold Agents.route_from_supervisor
    rw [if_neg h1, if_neg h2, if_neg h3, if_neg (by omega)]
  · intro env fuel cps
    exact PureGraph.stuck_onlyAccommodation env fuel
      [PureGraph.Node.supervisor] PureGraph.sScenarioB cps (Or.inl rfl) rfl

/-- C1 (witness): the amended theorem applied to the agents-version
Scenario B state and to a concrete environment and budget. -/
theorem c1_fallback_amended_witness :
    (Agents.route_from_supervisor Agents.aScenarioB = "end"
      ∧ Agents.aSymbolTargets "end" = some [])
    ∧ ((runLoop (PureGraph.pureGraph envFlightBoom) 9 false
        [PureGraph.Node.supervisor] PureGraph.sScenarioB []).1).isOutOfFuel
        = true :=
  ⟨c1_fallback_amended.1 Agents.aScenarioB (by decide) (by decide)
      (by decide) (by decide),
    c1_fallback_amended.2 envFlightBoom 9 []⟩

/-- C2: whenever the supervisor routing schedules the interrupt-flagged
feedback step, the engine returns control as suspended: the run outcome is
`suspended` at the state produced by the supervisor alone (so the feedback
handler never executed and the feedback slot is untouched), the aggregate
result reports `suspended=true`, and the latest persisted checkpoint has
next-step set exactly `[human_feedback]`. -/
theorem c2_interrupt_suspends (env : Env) (fuel : Nat)
    (s : PureGraph.TravelAgentState)
    (cps : List (Checkpoint PureGraph.Node PureGraph.TravelAgentState))
    (h : PureGraph.route_next_action s = "get_feedback") :
    (runLoop (PureGraph.pureGraph env) (fuel + 1 + 1) false
        [PureGraph.Node.supervisor] s cps).1
      = Outcome.suspended (PureGraph.supervisor_agent s)
          [PureGraph.Node.human_feedback]
    ∧ (PureGraph.mkRunResult
        (runLoop (PureGraph.pureGraph env) (fuel + 1 + 1) false
          [PureGraph.Node.supervisor] s cps).1).suspended = true
    ∧ (runLoop (PureGraph.pureGraph env) (fuel + 1 + 1) false
        [PureGraph.Node.supervisor] s cps).2.getLast?
      = some ⟨cps.length + 1, PureGraph.supervisor_agent s,
          [PureGraph.Node.human_feedback]⟩
    ∧ (PureGraph.supervisor_agent s).user_feedback = s.user_feedback := by
  have hroute2 : PureGraph.route_next_action (PureGraph.supervisor_agent s)
      = "get_feedback" := by
    rw [PureGraph.route_supervisor_agent]; exact h
  have hsucc : (PureGraph.pureGraph env).succ [PureGraph.Node.supervisor]
      (PureGraph.supervisor_agent s)
      = some [PureGraph.Node.human_feedback] := by
    rw [PureGraph.pureSucc_single]
    show PureGraph.symbolTargets
      (PureGraph.route_next_action (PureGraph.supervisor_agent s))
      = some [PureGraph.Node.human_feedback]
    rw [hroute2]
    decide
  have step1 : runLoop (PureGraph.pureGraph env) (fuel + 1 + 1) false
      [PureGraph.Node.supervisor] s cps
      = runLoop (PureGraph.pureGraph env) (fuel + 1) false
          [PureGraph.Node.human_feedback] (PureGraph.supervisor_agent s)
          (cps ++ [⟨cps.length, PureGraph.supervisor_agent s,
            [PureGraph.Node.human_feedback]⟩]) := by
    rw [runLoop]
    rw [if_neg (by decide),
      if_neg (by simp [PureGraph.pureGraph, PureGraph.interruptBefore])]
    simp only [PureGraph.execTargets_single, PureGraph.execNode]
    rw [hsucc]
  have step2 : runLoop (PureGraph.pureGraph env) (fuel + 1) false
      [PureGraph.Node.human_feedback] (PureGraph.supervisor_agent s)
      (cps ++ [⟨cps.length, PureGraph.supervisor_agent s,
        [PureGraph.Node.human_feedback]⟩])
      = (Outcome.suspended (PureGraph.supervisor_agent s)
          [PureGraph.Node.human_feedback],
        cps ++ [⟨cps.length, PureGraph.supervisor_agent s,
            [PureGraph.Node.human_feedback]⟩]
          ++ [⟨cps.length + 1, PureGraph.supervisor_agent s,
            [PureGraph.Node.human_feedback]⟩]) := by
    rw [runLoop]
    rw [if_neg (by decide),
      if_pos (by
        refine ⟨by decide, ?_⟩
        simp [PureGraph.pureGraph, PureGraph.interruptBefore])]
    simp [List.length_append]
  have key := step1.trans step2
  rw [key]
  refine ⟨rfl, rfl, ?_, rfl⟩
  simp [List.getLast?_append_cons]

/-- C2 (witness): concrete instantiation at a state whose three tasks are
completed with no feedback yet; the routing hypothesis holds by
computation. -/
theorem c2_interrupt_suspends_witness :
    (runLoop (PureGraph.pureGraph envOk) (0 + 1 + 1) false
        [PureGraph.Node.supervisor] PureGraph.sReadyFeedback []).1
      = Outcome.suspended (PureGraph.supervisor_agent PureGraph.sReadyFeedback)
          [PureGraph.Node.human_feedback]
    ∧ (PureGraph.mkRunResult
        (runLoop (PureGraph.pureGraph envOk) (0 + 1 + 1) false
          [PureGraph.Node.supervisor] PureGraph.sReadyFeedback []).1).suspended
      = true
    ∧ (runLoop (PureGraph.pureGraph envOk) (0 + 1 + 1) false
        [PureGraph.Node.supervisor] PureGraph.sReadyFeedback []).2.getLast?
      = some ⟨0 + 1,
          PureGraph.supervisor_agent PureGraph.sReadyFeedback,
          [PureGraph.Node.human_feedback]⟩
    ∧ (PureGraph.supervisor_agent PureGraph.sReadyFeedback).user_feedback
      = PureGraph.sReadyFeedback.user_feedback :=
  c2_interrupt_suspends envOk 0 PureGraph.sReadyFeedback [] (by decide)

/-- C3: an error raised by a task handler is caught and recorded under
that task's key in the error map and the state is otherwise returned
unchanged (the run is not aborted); and any run that reaches termination
produces an aggregate result with `success=true`, independently of the
error map. -/
theorem c3_error_asymmetry :
    (∀ (env : Env) (s : PureGraph.TravelAgentState) (e : String),
      env.flightResult = Except.error e →
      ¬ "flight_search" ∈ s.completed_tasks →
      PureGraph.flight_agent env s
        = { s with errors := dictSet s.errors "flight_agent" e })
    ∧ (∀ (env : Env) (s : PureGraph.TravelAgentState) (e : String),
      env.accommodationResult = Except.error e →
      ¬ "accommodation_search" ∈ s.completed_tasks →
      PureGraph.accommodation_agent env s
        = { s with errors := dictSet s.errors "accommodation_agent" e })
    ∧ (∀ (env : Env) (s : PureGraph.TravelAgentState) (e : String),
      env.itineraryResult = Except.error e →
      ¬ "itinerary_creation" ∈ s.completed_tasks →
      ¬ s.flight_details = none → ¬ s.accommodation_details = none →
      PureGraph.itinerary_agent env s
        = { s with errors := dictSet s.errors "itinerary_agent" e })
    ∧ (∀ (env : Env) (fuel : Nat) (skip : Bool) (t : List PureGraph.Node)
        (s sf : PureGraph.TravelAgentState)
        (cps cps2 : List (Checkpoint PureGraph.Node PureGraph.TravelAgentState)),
      runLoop (PureGraph.pureGraph env) fuel skip t s cps
          = (Outcome.terminated sf, cps2) →
      (PureGraph.mkRunResult (Outcome.terminated sf)).success = true) := by
  refine ⟨?_, ?_, ?_, ?_⟩
  · intro env s e he hn
    unfold PureGraph.flight_agent
    rw [if_neg hn, he]
  · intro env s e he hn
    unfold PureGraph.accommodation_agent
    rw [if_neg hn, he]
  · intro env s e he hn hf ha
    unfold PureGraph.itinerary_agent
    rw [if_neg hn, if_neg (by
      intro hor
      rcases hor with h | h
      · exact hf h
      · exact ha h), he]
  · intro env fuel skip t s sf cps cps2 _
    rfl

/-- C3 (witness): concrete instantiations — the failing flight search on
the fresh state records exactly `errors["flight_agent"]="boom"`, and the
terminated run from the all-done state with a recorded error reports
`success=true` while its error map is non-empty. -/
theorem c3_error_asymmetry_witness :
    PureGraph.flight_agent envFlightBoom (PureGraph.initialTravelState reqDemo)
      = { PureGraph.initialTravelState reqDemo with
          errors := dictSet (PureGraph.initialTravelState reqDemo).errors
            "flight_agent" "boom" }
    ∧ (PureGraph.mkRunResult
        (Outcome.terminated
          (PureGraph.supervisor_agent PureGraph.sAllDoneErr))).success = true
    ∧ (PureGraph.supervisor_agent PureGraph.sAllDoneErr).errors ≠ [] :=
  ⟨c3_error_asymmetry.1 envFlightBoom (PureGraph.initialTravelState reqDemo)
      "boom" rfl (by decide),
    c3_error_asymmetry.2.2.2 envFlightBoom 2 false [PureGraph.Node.supervisor]
      PureGraph.sAllDoneErr
      (PureGraph.supervisor_agent PureGraph.sAllDoneErr) []
      [⟨0, PureGraph.supervisor_agent PureGraph.sAllDoneErr, []⟩] (by decide),
    by decide⟩

/-- C4: each task handler is a no-op on a state that already contains its
task name in the completed list, and consequently, on every run started
from the initial state the completed-task list of the outcome state and of
every checkpointed state is duplicate-free (each task name appears at most
once). -/
theorem c4_idempotent_completion :
    (∀ (env : Env) (s : PureGraph.TravelAgentState),
      "flight_search" ∈ s.completed_tasks →
      PureGraph.flight_agent env s = s)
    ∧ (∀ (env : Env) (s : PureGraph.TravelAgentState),
      "accommodation_search" ∈ s.completed_tasks →
      PureGraph.accommodation_agent env s = s)
    ∧ (∀ (env : Env) (s : PureGraph.TravelAgentState),
      "itinerary_creation" ∈ s.completed_tasks →
      PureGraph.itinerary_agent env s = s)
    ∧ (∀ (env : Env) (fuel : Nat) (req : TravelRequest),
      PureGraph.NodupInv
        (runLoop (PureGraph.pureGraph env) fuel false
          [PureGraph.Node.supervisor]
          (PureGraph.initialTravelState req) [])) := by
  refine ⟨?_, ?_, ?_, ?_⟩
  · intro env s h
    unfold PureGraph.flight_agent
    rw [if_pos h]
  · intro env s h
    unfold PureGraph.accommodation_agent
    rw [if_pos h]
  · intro env s h
    unfold PureGraph.itinerary_agent
    rw [if_pos h]
  · intro env fuel req
    exact PureGraph.runLoop_nodup env fuel false [PureGraph.Node.supervisor]
      (PureGraph.initialTravelState req) [] List.nodup_nil (by intro cp h; cases h)

/-- C4 (witness): the no-op facts at a state with all tasks completed, and
the invariant on a concrete run. -/
theorem c4_idempotent_completion_witness :
    PureGraph.flight_agent envOk PureGraph.sAllDone = PureGraph.sAllDone
    ∧ PureGraph.accommodation_agent envOk PureGraph.sAllDone
      = PureGraph.sAllDone
    ∧ PureGraph.itinerary_agent envOk PureGraph.sAllDone = PureGraph.sAllDone
    ∧ PureGraph.NodupInv
        (runLoop (PureGraph.pureGraph envOk) 20 false
          [PureGraph.Node.supervisor]
          (PureGraph.initialTravelState reqDemo) []) :=
  ⟨c4_idempotent_completion.1 envOk PureGraph.sAllDone (by decide),
    c4_idempotent_completion.2.1 envOk PureGraph.sAllDone (by decide),
    c4_idempotent_completion.2.2.1 envOk PureGraph.sAllDone (by decide),
    c4_idempotent_completion.2.2.2 envOk 20 reqDemo⟩

/-- C5: the claim as stated is false on the sequential implementation: at
the initial agents-version state (empty completed list) the supervisor
routing returns "flight_search", whose declared target set is the single
flight coordinator — not a fan-out of both search steps. -/
theorem c5_counterexample :
    Agents.route_from_supervisor Agents.aStart = "flight_search"
    ∧ Agents.aSymbolTargets "flight_search"
      = some [Agents.ANode.flight_coordinator]
    ∧ [Agents.ANode.flight_coordinator].length = 1
    ∧ ¬ Agents.route_from_supervisor Agents.aStart = "parallel_search" := by
  refine ⟨by decide, by decide, by decide, by decide⟩

/-- C5 (amended): only the fan-out implementation schedules both searches
concurrently: on every state with an empty completed-task list the
fan-out version routes to "parallel_search", whose declared target set is
both search agents, while the sequential version routes to
"flight_search", whose declared target set is the flight coordinator
alone. -/
theorem c5_fanout_amended :
    (∀ s : PureGraph.TravelAgentState, s.completed_tasks = [] →
      PureGraph.route_next_action s = "parallel_search"
      ∧ PureGraph.symbolTargets "parallel_search"
        = some [PureGraph.Node.flight_agent,
            PureGraph.Node.accommodation_agent])
    ∧ (∀ s : Agents.TravelPlanningState, s.completed_tasks = [] →
      Agents.route_from_supervisor s = "flight_search"
      ∧ Agents.aSymbolTargets "flight_search"
        = some [Agents.ANode.flight_coordinator]) := by
  constructor
  · intro s h
    refine ⟨?_, by decide⟩
    unfold PureGraph.route_next_action
    rw [h]
    rw [if_pos (by decide)]
  · intro s h
    refine ⟨?_, by decide⟩
    unfold Agents.route_from_supervisor
    rw [h]
    rw [if_pos (by decide)]

/-- C5 (witness): the amended theorem applied to the two initial
states. -/
theorem c5_fanout_amended_witness :
    (PureGraph.route_next_action (PureGraph.initialTravelState reqDemo)
        = "parallel_search"
      ∧ PureGraph.symbolTargets "parallel_search"
        = some [PureGraph.Node.flight_agent,
            PureGraph.Node.accommodation_agent])
    ∧ (Agents.route_from_supervisor Agents.aStart = "flight_search"
      ∧ Agents.aSymbolTargets "flight_search"
        = some [Agents.ANode.flight_coordinator]) :=
  ⟨c5_fanout_amended.1 (PureGraph.initialTravelState reqDemo) rfl,
    c5_fanout_amended.2 Agents.aStart rfl⟩

/-- C6: the claim as stated is false on the fan-out implementation: at the
all-done state with feedback present the supervisor routing returns "end",
whose declared target set is empty, and the run terminates with only the
supervisor having executed — no aggregation step runs (the fan-out graph
has no aggregation node at all). -/
theorem c6_counterexample :
    PureGraph.route_next_action PureGraph.sAllDone = "end"
    ∧ PureGraph.symbolTargets "end" = some []
    ∧ (runLoop (PureGraph.pureGraph envOk) 2 false
        [PureGraph.Node.supervisor] PureGraph.sAllDone []).1
      = Outcome.terminated (PureGraph.supervisor_agent PureGraph.sAllDone) := by
  refine ⟨by decide, by decide, by decide⟩

/-- C6 (amended): only the sequential implementation terminates through
the aggregation step: on every state with all three tasks completed and
truthy feedback the agents version routes to "complete" and the run
terminates at the state produced by the result aggregator (so the
aggregation step executed before termination), while the fan-out version
routes to "end" and terminates at the state produced by the supervisor
alone, with no aggregation step. -/
theorem c6_aggregation_amended :
    (∀ (env : Env) (fuel : Nat) (s : Agents.TravelPlanningState)
      (cps : List (Checkpoint Agents.ANode Agents.TravelPlanningState)),
      "flight_search" ∈ s.completed_tasks →
      "accommodation_search" ∈ s.completed_tasks →
      "itinerary_creation" ∈ s.completed_tasks →
      pyTruthy s.user_feedback = true →
      Agents.route_from_supervisor s = "complete"
      ∧ (runLoop (Agents.agentsGraph env) (fuel + 1 + 1 + 1) false
          [Agents.ANode.supervisor] s cps).1
        = Outcome.terminated
            (Agents.result_aggregator (Agents.supervisor s)))
    ∧ (∀ (env : Env) (fuel : Nat) (s : PureGraph.TravelAgentState)
      (cps : List (Checkpoint PureGraph.Node PureGraph.TravelAgentState)),
      "flight_search" ∈ s.completed_tasks →
      "accommodation_search" ∈ s.completed_tasks →
      "itinerary_creation" ∈ s.completed_tasks →
      pyTruthy s.user_feedback = true →
      PureGraph.route_next_action s = "end"
      ∧ (runLoop (PureGraph.pureGraph env) (fuel + 1 + 1) false
          [PureGraph.Node.supervisor] s cps).1
        = Outcome.terminated (PureGraph.supervisor_agent s)) := by
  constructor
  · intro env fuel s cps hf ha hi hfb
    have hroute : Agents.route_from_supervisor s = "complete" :=
      Agents.route_complete_of_allDone s hf ha hi hfb
    refine ⟨hroute, ?_⟩
    have hroute2 : Agents.route_from_supervisor (Agents.supervisor s)
        = "complete" := by
      rw [Agents.route_supervisor_handler]; exact hroute
    have hsucc1 : (Agents.agentsGraph env).succ [Agents.ANode.supervisor]
        (Agents.supervisor s) = some [Agents.ANode.result_aggregator] := by
      rw [Agents.aSucc_single]
      show Agents.aSymbolTargets
        (Agents.route_from_supervisor (Agents.supervisor s))
        = some [Agents.ANode.result_aggregator]
      rw [hroute2]
      decide
    have hsucc2 : (Agents.agentsGraph env).succ
        [Agents.ANode.result_aggregator]
        (Agents.result_aggregator (Agents.supervisor s)) = some [] := by
      rw [Agents.aSucc_single]
      rfl
    have step1 : runLoop (Agents.agentsGraph env) (fuel + 1 + 1 + 1) false
        [Agents.ANode.supervisor] s cps
        = runLoop (Agents.agentsGraph env) (fuel + 1 + 1) false
            [Agents.ANode.result_aggregator] (Agents.supervisor s)
            (cps ++ [⟨cps.length, Agents.supervisor s,
              [Agents.ANode.result_aggregator]⟩]) := by
      rw [runLoop]
      rw [if_neg (by decide),
        if_neg (by simp [Agents.agentsGraph, Agents.aInterruptBefore])]
      simp only [Agents.aExecTargets_single, Agents.aExecNode]
      rw [hsucc1]
    have step2 : runLoop (Agents.agentsGraph env) (fuel + 1 + 1) false
        [Agents.ANode.result_aggregator] (Agents.supervisor s)
        (cps ++ [⟨cps.length, Agents.supervisor s,
          [Agents.ANode.result_aggregator]⟩])
        = runLoop (Agents.agentsGraph env) (fuel + 1) false []
            (Agents.result_aggregator (Agents.supervisor s))
            (cps ++ [⟨cps.length, Agents.supervisor s,
                [Agents.ANode.result_aggregator]⟩]
              ++ [⟨(cps ++ [(⟨cps.length, Agents.supervisor s,
                    [Agents.ANode.result_aggregator]⟩
                  : Checkpoint Agents.ANode Agents.TravelPlanningState)]).length,
                Agents.result_aggregator (Agents.supervisor s), []⟩]) := by
      rw [runLoop]
      rw [if_neg (by decide),
        if_neg (by simp [Agents.agentsGraph, Agents.aInterruptBefore])]
      simp only [Agents.aExecTargets_single, Agents.aExecNode]
      rw [hsucc2]
    rw [step1, step2, runLoop]
    rw [if_pos (by decide)]
  · intro env fuel s cps hf ha hi hfb
    have hroute : PureGraph.route_next_action s = "end" :=
      PureGraph.route_end_of_allDone s hf ha hi hfb
    refine ⟨hroute, ?_⟩
    have hroute2 : PureGraph.route_next_action (PureGraph.supervisor_agent s)
        = "end" := by
      rw [PureGraph.route_supervisor_agent]; exact hroute
    have hsucc1 : (PureGraph.pureGraph env).succ [PureGraph.Node.supervisor]
        (PureGraph.supervisor_agent s) = some [] := by
      rw [PureGraph.pureSucc_single]
      show PureGraph.symbolTargets
        (PureGraph.route_next_action (PureGraph.supervisor_agent s))
        = some []
      rw [hroute2]
      decide
    have step1 : runLoop (PureGraph.pureGraph env) (fuel + 1 + 1) false
        [PureGraph.Node.supervisor] s cps
        = runLoop (PureGraph.pureGraph env) (fuel + 1) false []
            (PureGraph.supervisor_agent s)
            (cps ++ [⟨cps.length, PureGraph.supervisor_agent s, []⟩]) := by
      rw [runLoop]
      rw [if_neg (by decide),
        if_neg (by simp [PureGraph.pureGraph, PureGraph.interruptBefore])]
      simp only [PureGraph.execTargets_single, PureGraph.execNode]
      rw [hsucc1]
    rw [step1, runLoop]
    rw [if_pos (by decide)]

/-- C6 (witness): the amended theorem applied to the concrete all-done
states of the two implementations. -/
theorem c6_aggregation_amended_witness :
    (Agents.route_from_supervisor Agents.aAllDone = "complete"
      ∧ (runLoop (Agents.agentsGraph envOk) (0 + 1 + 1 + 1) false
          [Agents.ANode.supervisor] Agents.aAllDone []).1
        = Outcome.terminated
            (Agents.result_aggregator (Agents.supervisor Agents.aAllDone)))
    ∧ (PureGraph.route_next_action PureGraph.sAllDone = "end"
      ∧ (runLoop (PureGraph.pureGraph envOk) (0 + 1 + 1) false
          [PureGraph.Node.supervisor] PureGraph.sAllDone []).1
        = Outcome.terminated
            (PureGraph.supervisor_agent PureGraph.sAllDone)) :=
  ⟨c6_aggregation_amended.1 envOk 0 Agents.aAllDone [] (by decide) (by decide)
      (by decide) (by decide),
    c6_aggregation_amended.2 envOk 0 PureGraph.sAllDone [] (by decide)
      (by decide) (by decide) (by decide)⟩

/-- C7: calling Run with a provided initial state on a session that
already has a checkpoint chain fails with "session already started" and
nothing else happens — the engine returns the error instead of executing
any step. -/
theorem c7_session_already_started {N S : Type} (G : GraphDef N S)
    (store : Store N S) (sid : String) (s0 : S) (fuel : Nat)
    (h : ¬ (lookupSession store sid).isEmpty) :
    schedRun G store sid (some s0) fuel
      = Except.error "session already started" := by
  show (if ¬ (lookupSession store sid).isEmpty then
      Except.error "session already started"
    else
      Except.ok ((runLoop G fuel false [G.entry] s0 []).1,
        storeSet store sid (runLoop G fuel false [G.entry] s0 []).2))
    = Except.error "session already started"
  rw [if_pos h]

/-- C7 (witness): the theorem applied to the concrete one-checkpoint
store. -/
theorem c7_session_already_started_witness :
    schedRun (PureGraph.pureGraph envOk) PureGraph.storeDemo "s1"
        (some (PureGraph.initialTravelState reqDemo)) 5
      = Except.error "session already started" :=
  c7_session_already_started (PureGraph.pureGraph envOk) PureGraph.storeDemo
    "s1" (PureGraph.initialTravelState reqDemo) 5 (by decide)

/-- C8: Resume injects the supplied values into the stored head checkpoint
and then runs with no new initial state: Resume equals Run-with-none on the
value-injected store; after injection the head checkpoint keeps its step
index and next-step set but carries the injected feedback value; and the
continued execution is the engine loop started from the stored next-step
set on exactly that injected state. -/
theorem c8_resume_injection (env : Env) (fuel : Nat)
    (store : Store PureGraph.Node PureGraph.TravelAgentState)
    (sid v : String)
    (cp : Checkpoint PureGraph.Node PureGraph.TravelAgentState)
    (h : (lookupSession store sid).getLast? = some cp) :
    resume (PureGraph.pureGraph env) store sid
        (PureGraph.applyInputValues [("user_feedback", v)]) fuel
      = schedRun (PureGraph.pureGraph env)
          (injectValues store sid
            (PureGraph.applyInputValues [("user_feedback", v)]))
          sid none fuel
    ∧ (lookupSession
        (injectValues store sid
          (PureGraph.applyInputValues [("user_feedback", v)])) sid).getLast?
      = some ⟨cp.stepIndex, { cp.state with user_feedback := some v },
          cp.nextSteps⟩
    ∧ ({ cp.state with user_feedback := some v }
        : PureGraph.TravelAgentState).user_feedback = some v
    ∧ ∃ r, schedRun (PureGraph.pureGraph env)
          (injectValues store sid
            (PureGraph.applyInputValues [("user_feedback", v)]))
          sid none fuel
        = Except.ok r
      ∧ r.1 = (runLoop (PureGraph.pureGraph env) fuel true cp.nextSteps
          { cp.state with user_feedback := some v }
          (lookupSession
            (injectValues store sid
              (PureGraph.applyInputValues [("user_feedback", v)]))
            sid)).1 := by
  have hstore : injectValues store sid
      (PureGraph.applyInputValues [("user_feedback", v)])
      = storeSet store sid ((lookupSession store sid).dropLast
          ++ [⟨cp.stepIndex,
            PureGraph.applyInputValues [("user_feedback", v)] cp.state,
            cp.nextSteps⟩]) := by
    unfold injectValues
    rw [h]
  have hlook : lookupSession
      (injectValues store sid
        (PureGraph.applyInputValues [("user_feedback", v)])) sid
      = (lookupSession store sid).dropLast
        ++ [⟨cp.stepIndex,
          PureGraph.applyInputValues [("user_feedback", v)] cp.state,
          cp.nextSteps⟩] := by
    rw [hstore, lookupSession_storeSet]
  have hlast : (lookupSession
      (injectValues store sid
        (PureGraph.applyInputValues [("user_feedback", v)])) sid).getLast?
      = some ⟨cp.stepIndex,
          PureGraph.applyInputValues [("user_feedback", v)] cp.state,
          cp.nextSteps⟩ := by
    rw [hlook]
    simp [List.getLast?_append_cons]
  refine ⟨rfl, ?_, rfl, ?_⟩
  · exact hlast
  · unfold schedRun
    rw [hlast]
    refine ⟨_, rfl, ?_⟩
    rw [hlook]
    rfl

/-- C8 (witness): the theorem applied to the concrete suspended store with
the approval value. -/
theorem c8_resume_injection_witness :
    resume (PureGraph.pureGraph envOk) PureGraph.storeDemo "s1"
        (PureGraph.applyInputValues [("user_feedback", "approved")]) 9
      = schedRun (PureGraph.pureGraph envOk)
          (injectValues PureGraph.storeDemo "s1"
            (PureGraph.applyInputValues [("user_feedback", "approved")]))
          "s1" none 9
    ∧ (lookupSession
        (injectValues PureGraph.storeDemo "s1"
          (PureGraph.applyInputValues [("user_feedback", "approved")]))
        "s1").getLast?
      = some ⟨PureGraph.cpDemo.stepIndex,
          { PureGraph.cpDemo.state with user_feedback := some "approved" },
          PureGraph.cpDemo.nextSteps⟩
    ∧ ({ PureGraph.cpDemo.state with user_feedback := some "approved" }
        : PureGraph.TravelAgentState).user_feedback = some "approved"
    ∧ ∃ r, schedRun (PureGraph.pureGraph envOk)
          (injectValues PureGraph.storeDemo "s1"
            (PureGraph.applyInputValues [("user_feedback", "approved")]))
          "s1" none 9
        = Except.ok r
      ∧ r.1 = (runLoop (PureGraph.pureGraph envOk) 9 true
          PureGraph.cpDemo.nextSteps
          { PureGraph.cpDemo.state with user_feedback := some "approved" }
          (lookupSession
            (injectValues PureGraph.storeDemo "s1"
              (PureGraph.applyInputValues [("user_feedback", "approved")]))
            "s1")).1 :=
  c8_resume_injection envOk 9 PureGraph.storeDemo "s1" "approved"
    PureGraph.cpDemo (by decide)

/-- C9: routing totality — for every state the supervisor routing function
of the fan-out version returns one of the five symbols declared for its
conditional edge, so the undeclared-symbol lookup never fails. -/
theorem c9_routing_totality (s : PureGraph.TravelAgentState) :
    PureGraph.route_next_action s
        ∈ ["parallel_search", "create_itinerary", "get_feedback",
            "coordinate", "end"]
      ∧ (PureGraph.symbolTargets (PureGraph.route_next_action s)).isSome
        = true := by
  unfold PureGraph.route_next_action
  by_cases h1 : s.completed_tasks.toFinset = ∅
  · rw [if_pos h1]
    exact ⟨by decide, by decide⟩
  · rw [if_neg h1]
    by_cases h2 : "flight_search" ∈ s.completed_tasks.toFinset
        ∧ "accommodation_search" ∈ s.completed_tasks.toFinset
        ∧ "itinerary_creation" ∉ s.completed_tasks.toFinset
    · rw [if_pos h2]
      exact ⟨by decide, by decide⟩
    · rw [if_neg h2]
      by_cases h3 : 3 ≤ s.completed_tasks.toFinset.card
      · rw [if_pos h3]
        by_cases h4 : pyTruthy s.user_feedback
        · rw [if_pos h4]
          exact ⟨by decide, by decide⟩
        · rw [if_neg h4]
          exact ⟨by decide, by decide⟩
      · rw [if_neg h3]
        exact ⟨by decide, by decide⟩

/-- C10: the compose handler invoked while a detail slot is still empty
and its task not completed returns the state entirely unchanged, in both
implementations: no completed task added, no error recorded, no result
slot touched. -/
theorem c10_itinerary_frame :
    (∀ (env : Env) (s : PureGraph.TravelAgentState),
      ¬ "itinerary_creation" ∈ s.completed_tasks →
      (s.flight_details = none ∨ s.accommodation_details = none) →
      PureGraph.itinerary_agent env s = s)
    ∧ (∀ (env : Env) (s : Agents.TravelPlanningState),
      ¬ "itinerary_creation" ∈ s.completed_tasks →
      (s.flight_details = none ∨ s.accommodation_details = none) →
      Agents.itinerary_coordinator env s = s) := by
  constructor
  · intro env s hn hor
    unfold PureGraph.itinerary_agent
    rw [if_neg hn, if_pos hor]
  · intro env s hn hor
    unfold Agents.itinerary_coordinator
    rw [if_neg hn, if_pos hor]

/-- C10 (witness): the theorem applied to the Scenario B states, whose
flight slot is empty and whose compose task is not completed. -/
theorem c10_itinerary_frame_witness :
    PureGraph.itinerary_agent envOk PureGraph.sScenarioB
      = PureGraph.sScenarioB
    ∧ Agents.itinerary_coordinator envOk Agents.aScenarioB
      = Agents.aScenarioB :=
  ⟨c10_itinerary_frame.1 envOk PureGraph.sScenarioB (by decide) (Or.inl rfl),
    c10_itinerary_frame.2 envOk Agents.aScenarioB (by decide) (Or.inl rfl)⟩

end TravelAI
